import Mathlib

/-!
Verification development for the gex-tool repository.

Part 1 embeds the GEX aggregation engine of `gex_calculator.py`
(`calculate_gex`): option-chain records become a list of `OptionRecord`
over `ℚ`, the pandas pivot/groupby pipeline becomes explicit filtered
sums over that list, and the returned `(pivot, gex_by_strike,
net_contracts)` triple becomes a `GexResult`.

Part 2 embeds the OAuth token-renewal client of
`schwab_client_cloud.py` (`CloudClient._refresh_access_token`,
`CloudClient._ensure_token`) as pure state transformers, with the
HTTP response as explicit input, and a two-thread interleaving
semantics for the expiry-check / renew sequence.

Part 3 embeds the credential-cache seeding step of `schwab_auth.py`
(`_seed_tokens_from_secrets`) over an explicit single-table cache.
-/

/-- Configuration constant `AGGREGATE_DTE = 30` from `config.py`. -/
def AGGREGATE_DTE : ℕ := 30

/-- Configuration constant `NUM_EXPIRY_COLUMNS = 5` from `config.py`. -/
def NUM_EXPIRY_COLUMNS : ℕ := 5

/-- One row of the normalized options DataFrame consumed by
`calculate_gex`: columns `strike`, `expiration`, `dte`, `call_OI`,
`put_OI`, `call_gamma`, `put_gamma`.  Expirations are day ordinals. -/
structure OptionRecord where
  strike : ℚ
  expiration : ℕ
  dte : ℕ
  call_OI : ℚ
  put_OI : ℚ
  call_gamma : ℚ
  put_gamma : ℚ
deriving DecidableEq

/-- `df["call_gex"] = df["call_OI"] * df["call_gamma"] * 100` (line 26). -/
def call_gex (r : OptionRecord) : ℚ := r.call_OI * r.call_gamma * 100

/-- `df["put_gex"] = -df["put_OI"] * df["put_gamma"] * 100` (line 27). -/
def put_gex (r : OptionRecord) : ℚ := -r.put_OI * r.put_gamma * 100

/-- `df["net_gex"] = df["call_gex"] + df["put_gex"]` (line 28). -/
def net_gex (r : OptionRecord) : ℚ := call_gex r + put_gex r

/-- `df["net_contracts"] = df["call_OI"] - df["put_OI"]` (line 31). -/
def net_contracts (r : OptionRecord) : ℚ := r.call_OI - r.put_OI

/-- `unique_exps = sorted(df["expiration"].unique())` (line 34). -/
def uniqueExps (records : List OptionRecord) : List ℕ :=
  List.insertionSort (· ≤ ·) (records.map OptionRecord.expiration).dedup

/-- `display_exps = unique_exps[:NUM_EXPIRY_COLUMNS]` (line 35). -/
def display_exps (records : List OptionRecord) : List ℕ :=
  (uniqueExps records).take NUM_EXPIRY_COLUMNS

/-- The distinct strikes of the record set, descending
(`sort_index(ascending=False)`, line 60). -/
def strikesDesc (records : List OptionRecord) : List ℚ :=
  List.insertionSort (fun a b => b ≤ a) (records.map OptionRecord.strike).dedup

/-- One cell of the pivot (lines 38-43 with `fillna(0)`, line 68): sum of
`net_gex` over records at this (strike, expiration) pair, `0` when none. -/
def pivotCellVal (records : List OptionRecord) (s : ℚ) (e : ℕ) : ℚ :=
  ((records.filter fun r => decide (r.strike = s ∧ r.expiration = e)).map net_gex).sum

/-- One cell of the `0-30 DTE` aggregate column (lines 49-51 with
`fillna(0)`): sum of `net_gex` over records at this strike with
`dte <= AGGREGATE_DTE`. -/
def aggCellVal (records : List OptionRecord) (s : ℚ) : ℚ :=
  ((records.filter fun r => decide (r.strike = s ∧ r.dte ≤ AGGREGATE_DTE)).map net_gex).sum

/-- `gex_by_strike = df.groupby("strike")["net_gex"].sum()` (line 57). -/
def gexByStrikeVal (records : List OptionRecord) (s : ℚ) : ℚ :=
  ((records.filter fun r => decide (r.strike = s)).map net_gex).sum

/-- `net_contracts = df.groupby("strike")["net_contracts"].sum()` (line 54). -/
def netContractsVal (records : List OptionRecord) (s : ℚ) : ℚ :=
  ((records.filter fun r => decide (r.strike = s)).map net_contracts).sum

/-- One row of the returned pivot table: the strike, the cells of the
displayed-expiration columns (in `expColumns` order), the `0-30 DTE`
aggregate cell, and the `Net Contracts` cell (line 65). -/
structure GexRow where
  strike : ℚ
  expCells : List ℚ
  aggCell : ℚ
  netContractsCell : ℚ
deriving DecidableEq

/-- The triple returned by `calculate_gex` (line 70): the pivot table
(displayed expiration columns and strike-indexed rows, descending) and
the two strike-indexed series, also descending. -/
structure GexResult where
  expColumns : List ℕ
  rows : List GexRow
  gex_by_strike : List (ℚ × ℚ)
  net_contracts_by_strike : List (ℚ × ℚ)
deriving DecidableEq

/-- `calculate_gex(options_df, spot_price)` of `gex_calculator.py`,
lines 6-70.  `spot_price` is accepted but never read, exactly as in the
source.  The empty-input early return is lines 20-21. -/
def calculate_gex (records : List OptionRecord) (spot_price : ℚ) : GexResult :=
  if records.isEmpty then ⟨[], [], [], []⟩
  else
    { expColumns := display_exps records
      rows := (strikesDesc records).map fun s =>
        { strike := s
          expCells := (display_exps records).map fun e => pivotCellVal records s e
          aggCell := aggCellVal records s
          netContractsCell := netContractsVal records s }
      gex_by_strike := (strikesDesc records).map fun s => (s, gexByStrikeVal records s)
      net_contracts_by_strike :=
        (strikesDesc records).map fun s => (s, netContractsVal records s) }

/-! ## Token renewal client (`schwab_client_cloud.py`) -/

/-- The mutable credential state of `CloudClient`: `_access_token`,
`_refresh_token`, `_token_expiry` (an integer timestamp in seconds,
standing for the UTC datetime of the source). -/
structure ClientState where
  access_token : Option String
  refresh_token : String
  token_expiry : ℤ
deriving DecidableEq

/-- The token-endpoint HTTP response as seen by
`_refresh_access_token`: the status code and the parsed JSON body's
optional fields. -/
structure TokenResponse where
  status_code : ℕ
  access_token : Option String
  refresh_token : Option String
  expires_in : Option ℤ
deriving DecidableEq

/-- `requests.Response.ok`: true exactly when `status_code < 400`. -/
def respOk (resp : TokenResponse) : Bool := decide (resp.status_code < 400)

/-- The distinguishable ways `_refresh_access_token` can raise:
`renewalFailed` is the `RuntimeError` of lines 64-68 ("Schwab token
refresh failed"), `keyError` is the `KeyError` from `data["access_token"]`
at line 71 when the body lacks that field. -/
inductive RefreshError where
  | renewalFailed
  | keyError
deriving DecidableEq

/-- `CloudClient._refresh_access_token` (lines 46-78) as a pure state
transformer: the HTTP response is an explicit input, `now` is the time
`datetime.datetime.now` returns at line 76.  On `not resp.ok` it raises
before touching any state (lines 62-68); otherwise it stores the new
access token, adopts a rotated refresh token when present (lines 73-74),
and sets `token_expiry = now + (expires_in - 60)` with `expires_in`
defaulting to `1800` (lines 75-76). -/
def refreshAccessToken (now : ℤ) (resp : TokenResponse) (s : ClientState) :
    Except RefreshError ClientState :=
  if respOk resp then
    match resp.access_token with
    | none => .error .keyError
    | some tok =>
      .ok { access_token := some tok
            refresh_token := resp.refresh_token.getD s.refresh_token
            token_expiry := now + (resp.expires_in.getD 1800 - 60) }
  else .error .renewalFailed

/-! Two-thread interleaving model of `_ensure_token` (lines 80-84).
The expiry comparison `now >= self._token_expiry` (line 83) runs with no
lock held; only the body of `_refresh_access_token` runs under
`self._lock` (line 48), so refresh bodies are serialized but an expiry
check may interleave anywhere.  Each thread is a program counter:
`start` (about to run the line-83 check), `willRefresh` (check saw an
expired token, about to enter the lock), `done`. -/

/-- Shared state seen by the interleaving model: the token expiry and a
counter of renewal HTTP requests issued (POSTs at line 49). -/
structure TokenState where
  token_expiry : ℤ
  refresh_count : ℕ
deriving DecidableEq

/-- The line-83 test `now >= self._token_expiry`. -/
def checkExpired (now : ℤ) (s : TokenState) : Bool := decide (s.token_expiry ≤ now)

/-- The successful renewal body under the lock: one HTTP request and the
expiry update of line 76 (with declared lifetime `expires_in`). -/
def refreshStep (now expires_in : ℤ) (s : TokenState) : TokenState :=
  { token_expiry := now + (expires_in - 60), refresh_count := s.refresh_count + 1 }

/-- Program counter of a thread running `_ensure_token`. -/
inductive ThreadPC where
  | start
  | willRefresh
  | done
deriving DecidableEq

/-- One atomic step of a thread: the unlocked check (line 83), or the
locked renewal body.  The lock is respected because the whole renewal
body is a single step, so two renewal bodies never interleave. -/
def threadStep (now expires_in : ℤ) (s : TokenState) (pc : ThreadPC) :
    TokenState × ThreadPC :=
  match pc with
  | .start => (s, if checkExpired now s then .willRefresh else .done)
  | .willRefresh => (refreshStep now expires_in s, .done)
  | .done => (s, .done)

/-- Run two threads of `_ensure_token` under a schedule: `true` steps
thread 1, `false` steps thread 2. -/
def run2 (now expires_in : ℤ) : List Bool → TokenState → ThreadPC → ThreadPC →
    TokenState × ThreadPC × ThreadPC
  | [], s, pc1, pc2 => (s, pc1, pc2)
  | true :: rest, s, pc1, pc2 =>
    let r := threadStep now expires_in s pc1
    run2 now expires_in rest r.1 r.2 pc2
  | false :: rest, s, pc1, pc2 =>
    let r := threadStep now expires_in s pc2
    run2 now expires_in rest r.1 pc1 r.2

/-! ## Credential cache seeding (`schwab_auth.py`) -/

/-- The secret bundle read from `st.secrets` (lines 16-20), `none` for
the whole bundle when reading secrets raised (lines 21-22).  `id_token`
is read with default `""`, the others return `None` when absent. -/
structure SecretsBundle where
  refresh_token : Option String
  access_token : Option String
  id_token : String
  rt_issued : Option String
  at_issued : Option String
deriving DecidableEq

/-- One row of the `schwabdev` token table (lines 32-43). -/
structure TokenRow where
  access_token_issued : Option String
  refresh_token_issued : Option String
  access_token : Option String
  refresh_token : Option String
  id_token : String
  expires_in : ℤ
  token_type : String
  scope : String
deriving DecidableEq

/-- Python truthiness of an optional string: `None` and `""` are falsy. -/
def truthyOpt : Option String → Bool
  | none => false
  | some s => !(s == "")

/-- The row the `INSERT` of lines 48-51 writes. -/
def seedRow (b : SecretsBundle) : TokenRow :=
  { access_token_issued := b.at_issued
    refresh_token_issued := b.rt_issued
    access_token := b.access_token
    refresh_token := b.refresh_token
    id_token := b.id_token
    expires_in := 1800
    token_type := "Bearer"
    scope := "api" }

/-- The way the `INSERT` of lines 48-51 can raise: the table schema of
lines 32-43 declares `access_token_issued`, `refresh_token_issued`,
`access_token`, `refresh_token` and `id_token` NOT NULL, while the
guard of lines 24-25 checks only `refresh_token` and `at_issued`, so a
bundle whose `rt_issued` or `access_token` is `None` makes the insert
raise `sqlite3.IntegrityError` and the row is not written. -/
inductive SeedError where
  | integrityError
deriving DecidableEq

/-- `_seed_tokens_from_secrets` (lines 7-53) as a transformer of the
local cache table: return unchanged when secrets are unreadable
(lines 21-22) or `not refresh_token or not at_issued` (lines 24-25);
attempt the insert only when the table is empty (lines 46-52), raising
`integrityError` when the unguarded NOT-NULL values `rt_issued` or
`access_token` are absent (`at_issued`, `refresh_token` are non-null by
the guard, `id_token` is a string with default `""`). -/
def seed_tokens_from_secrets (secrets : Option SecretsBundle)
    (cache : List TokenRow) : Except SeedError (List TokenRow) :=
  match secrets with
  | none => .ok cache
  | some b =>
    if truthyOpt b.refresh_token = false ∨ truthyOpt b.at_issued = false then .ok cache
    else if cache.length = 0 then
      if b.rt_issued = none ∨ b.access_token = none then .error .integrityError
      else .ok (cache ++ [seedRow b])
    else .ok cache

/-! ## Concrete fixtures (used by witness theorems) -/

/-- Three records at strike 4500 with DTE 5, 10 and 45: the shape of the
spec's aggregate-completeness example. -/
def recsAgg : List OptionRecord :=
  [⟨4500, 1, 5, 10, 0, 1/100, 0⟩, ⟨4500, 2, 10, 0, 7, 0, 1/50⟩,
   ⟨4500, 9, 45, 3, 0, 1/10, 0⟩]

/-- Six records at strike 100 over six distinct expirations, one more
than `NUM_EXPIRY_COLUMNS`. -/
def recs6 : List OptionRecord :=
  [⟨100, 1, 1, 1, 0, 1, 0⟩, ⟨100, 2, 2, 1, 0, 1, 0⟩, ⟨100, 3, 3, 1, 0, 1, 0⟩,
   ⟨100, 4, 4, 1, 0, 1, 0⟩, ⟨100, 5, 5, 1, 0, 1, 0⟩, ⟨100, 6, 6, 1, 0, 1, 0⟩]

/-- Two records at strike 4500 with call OI split 60/40 and put OI split
40/0 across two expirations: the spec's net-OI example. -/
def recsOI : List OptionRecord :=
  [⟨4500, 1, 5, 60, 40, 1/100, 1/100⟩, ⟨4500, 2, 10, 40, 0, 1/100, 0⟩]

/-! ## Helper lemmas -/

/-- The empty-input early return (lines 20-21) agrees with the general
construction, so `calculate_gex` always equals the general form. -/
lemma calculate_gex_eq (records : List OptionRecord) (spot : ℚ) :
    calculate_gex records spot =
      { expColumns := display_exps records
        rows := (strikesDesc records).map fun s =>
          { strike := s
            expCells := (display_exps records).map fun e => pivotCellVal records s e
            aggCell := aggCellVal records s
            netContractsCell := netContractsVal records s }
        gex_by_strike := (strikesDesc records).map fun s => (s, gexByStrikeVal records s)
        net_contracts_by_strike :=
          (strikesDesc records).map fun s => (s, netContractsVal records s) } := by
  unfold calculate_gex
  by_cases h : records.isEmpty
  · rw [List.isEmpty_iff] at h
    subst h
    simp [display_exps, uniqueExps, strikesDesc, List.insertionSort]
  · simp [h]

lemma mem_strikesDesc {records : List OptionRecord} {s : ℚ} :
    s ∈ strikesDesc records ↔ ∃ r ∈ records, r.strike = s := by
  unfold strikesDesc
  rw [(List.perm_insertionSort _ _).mem_iff, List.mem_dedup, List.mem_map]

lemma mem_uniqueExps {records : List OptionRecord} {e : ℕ} :
    e ∈ uniqueExps records ↔ ∃ r ∈ records, r.expiration = e := by
  unfold uniqueExps
  rw [(List.perm_insertionSort _ _).mem_iff, List.mem_dedup, List.mem_map]

lemma nodup_uniqueExps (records : List OptionRecord) : (uniqueExps records).Nodup :=
  (List.perm_insertionSort _ _).nodup_iff.mpr (List.nodup_dedup _)

lemma sorted_uniqueExps (records : List OptionRecord) :
    (uniqueExps records).Sorted (· ≤ ·) :=
  List.sorted_insertionSort _ _

lemma pairwise_lt_uniqueExps (records : List OptionRecord) :
    List.Pairwise (· < ·) (uniqueExps records) := by
  have h := (sorted_uniqueExps records).and (nodup_uniqueExps records)
  exact h.imp fun hab => lt_of_le_of_ne hab.1 hab.2

lemma sorted_strikesDesc (records : List OptionRecord) :
    (strikesDesc records).Sorted (fun a b : ℚ => b ≤ a) := by
  haveI h1 : IsTotal ℚ (fun a b : ℚ => b ≤ a) := ⟨fun a b => le_total b a⟩
  haveI h2 : IsTrans ℚ (fun a b : ℚ => b ≤ a) := ⟨fun _ _ _ hab hbc => le_trans hbc hab⟩
  exact List.sorted_insertionSort _ _

/-- Elements of a `(· < ·)`-pairwise list that fall outside its `take n`
front are strictly above every element of that front. -/
lemma take_lt_of_not_mem {l : List ℕ} (hp : List.Pairwise (· < ·) l) (n : ℕ)
    {e : ℕ} (he : e ∈ l) (hne : e ∉ l.take n) {f : ℕ} (hf : f ∈ l.take n) : f < e := by
  have hsplit : l.take n ++ l.drop n = l := List.take_append_drop n l
  rw [← hsplit] at hp he
  rcases List.mem_append.mp he with h | h
  · exact absurd h hne
  · exact (List.pairwise_append.mp hp).2.2 f hf e h

/-- Appending one record changes the aggregate-column cell by that
record's `net_gex` exactly when the record is at this strike and within
the DTE threshold. -/
lemma aggCellVal_append (records : List OptionRecord) (r0 : OptionRecord) (s : ℚ) :
    aggCellVal (records ++ [r0]) s =
      aggCellVal records s +
        (if r0.strike = s ∧ r0.dte ≤ AGGREGATE_DTE then net_gex r0 else 0) := by
  unfold aggCellVal
  rw [List.filter_append]
  by_cases h : r0.strike = s ∧ r0.dte ≤ AGGREGATE_DTE
  · simp [List.filter, h]
  · simp [List.filter, h]

/-- Appending one record at this strike adds its `net_gex` to the
per-strike exposure value, whatever its expiration. -/
lemma gexByStrikeVal_append (records : List OptionRecord) (r0 : OptionRecord) (s : ℚ) :
    gexByStrikeVal (records ++ [r0]) s =
      gexByStrikeVal records s + (if r0.strike = s then net_gex r0 else 0) := by
  unfold gexByStrikeVal
  rw [List.filter_append]
  by_cases h : r0.strike = s
  · simp [List.filter, h]
  · simp [List.filter, h]

/-- Appending one record at this strike adds its `net_contracts` to the
per-strike net-open-interest value, whatever its expiration. -/
lemma netContractsVal_append (records : List OptionRecord) (r0 : OptionRecord) (s : ℚ) :
    netContractsVal (records ++ [r0]) s =
      netContractsVal records s + (if r0.strike = s then net_contracts r0 else 0) := by
  unfold netContractsVal
  rw [List.filter_append]
  by_cases h : r0.strike = s
  · simp [List.filter, h]
  · simp [List.filter, h]

/-- The collapsed-in-no-overwrite error path, kept explicit: a bundle
that passes the line-24 guard but lacks `rt_issued` or `access_token`
makes the insert into the empty cache raise `IntegrityError`, leaving
no row written. -/
lemma seed_integrity_error (b : SecretsBundle)
    (hrt : truthyOpt b.refresh_token = true) (hat : truthyOpt b.at_issued = true)
    (hmiss : b.rt_issued = none ∨ b.access_token = none) :
    seed_tokens_from_secrets (some b) [] = .error SeedError.integrityError := by
  have hguard : ¬(truthyOpt b.refresh_token = false ∨ truthyOpt b.at_issued = false) := by
    simp [hrt, hat]
  unfold seed_tokens_from_secrets
  simp [hguard, hmiss]

/-! ## Claim theorems -/

/-- C1: for every contract record the engine computes
`call_gex = call_OI * call_gamma * 100`,
`put_gex = -(put_OI * put_gamma * 100)` and
`net_gex = call_gex + put_gex`; with positive call gamma and zero put
gamma the net exposure equals `call_OI * call_gamma * 100` and is
strictly positive when `call_OI > 0`; with positive put gamma and zero
call gamma it equals `-(put_OI * put_gamma * 100)` and is strictly
negative when `put_OI > 0`. -/
theorem C1_sign_invariant (r : OptionRecord) :
    call_gex r = r.call_OI * r.call_gamma * 100 ∧
    put_gex r = -(r.put_OI * r.put_gamma * 100) ∧
    net_gex r = call_gex r + put_gex r ∧
    (0 < r.call_gamma → r.put_gamma = 0 →
      net_gex r = r.call_OI * r.call_gamma * 100 ∧ (0 < r.call_OI → 0 < net_gex r)) ∧
    (0 < r.put_gamma → r.call_gamma = 0 →
      net_gex r = -(r.put_OI * r.put_gamma * 100) ∧ (0 < r.put_OI → net_gex r < 0)) := by
  refine ⟨rfl, by unfold put_gex; ring, rfl, ?_, ?_⟩
  · intro hcg hpg
    have h1 : net_gex r = r.call_OI * r.call_gamma * 100 := by
      unfold net_gex call_gex put_gex; rw [hpg]; ring
    refine ⟨h1, fun hoi => ?_⟩
    rw [h1]
    exact mul_pos (mul_pos hoi hcg) (by norm_num)
  · intro hpg hcg
    have h1 : net_gex r = -(r.put_OI * r.put_gamma * 100) := by
      unfold net_gex call_gex put_gex; rw [hcg]; ring
    refine ⟨h1, fun hoi => ?_⟩
    rw [h1]
    have h2 : 0 < r.put_OI * r.put_gamma * 100 :=
      mul_pos (mul_pos hoi hpg) (by norm_num)
    linarith

/-- Witness for C1 at two concrete records: a call-only record with
positive OI and gamma, and a put-only record with positive OI and
gamma. -/
theorem C1_sign_invariant_witness :
    net_gex ⟨4500, 1, 5, 10, 0, 1/100, 0⟩ = 10 ∧
    (0:ℚ) < net_gex ⟨4500, 1, 5, 10, 0, 1/100, 0⟩ ∧
    net_gex ⟨4500, 2, 10, 0, 7, 0, 1/50⟩ = -14 ∧
    net_gex ⟨4500, 2, 10, 0, 7, 0, 1/50⟩ < 0 := by
  have hc := (C1_sign_invariant ⟨4500, 1, 5, 10, 0, 1/100, 0⟩).2.2.2.1 (by norm_num) rfl
  have hp := (C1_sign_invariant ⟨4500, 2, 10, 0, 7, 0, 1/50⟩).2.2.2.2 (by norm_num) rfl
  refine ⟨?_, hc.2 (by norm_num), ?_, hp.2 (by norm_num)⟩
  · rw [hc.1]; norm_num
  · rw [hp.1]; norm_num

/-- C9: the engine's output is identical for any two spot prices
(including zero and negative ones): `calculate_gex` never reads
`spot_price`. -/
theorem C9_spot_price_irrelevant (records : List OptionRecord) (s1 s2 : ℚ) :
    calculate_gex records s1 = calculate_gex records s2 := rfl

/-- C4 counterexample: a 302 response is non-2xx, but `resp.ok` (status
< 400) is true for it, so with an `access_token` in the body the code
returns success and overwrites the stored state instead of raising. -/
theorem C4_counterexample :
    refreshAccessToken 1000 ⟨302, some "newtok", none, some 1800⟩
        ⟨some "oldtok", "rt0", 500⟩ =
      Except.ok ⟨some "newtok", "rt0", 2740⟩ ∧
    (⟨some "newtok", "rt0", 2740⟩ : ClientState) ≠ ⟨some "oldtok", "rt0", 500⟩ :=
  ⟨rfl, by decide⟩

/-- C4 (amended): whenever the token endpoint responds with an error
status (≥ 400, i.e. `resp.ok` false), the renewal raises the
distinguishable renewal-failure error and no state field is written. -/
theorem C4_renewal_failure (now : ℤ) (resp : TokenResponse) (s : ClientState)
    (h : 400 ≤ resp.status_code) :
    refreshAccessToken now resp s = Except.error RefreshError.renewalFailed := by
  have hlt : ¬ resp.status_code < 400 := Nat.not_lt.mpr h
  unfold refreshAccessToken respOk
  simp [hlt]

/-- Witness for C4 (amended) at a concrete 500 response. -/
theorem C4_renewal_failure_witness :
    refreshAccessToken 0 ⟨500, some "tok", none, some 1800⟩ ⟨some "old", "rt", 99⟩ =
      Except.error RefreshError.renewalFailed :=
  C4_renewal_failure 0 ⟨500, some "tok", none, some 1800⟩ ⟨some "old", "rt", 99⟩
    (by norm_num)

/-- C7: on every successful renewal the stored expiry equals renewal
time plus the declared `expires_in` minus the 60-second safety margin. -/
theorem C7_expiry_arithmetic (now : ℤ) (resp : TokenResponse) (s : ClientState)
    (tok : String) (n : ℤ) (hok : resp.status_code < 400)
    (htok : resp.access_token = some tok) (hexp : resp.expires_in = some n) :
    refreshAccessToken now resp s =
      Except.ok { access_token := some tok
                  refresh_token := resp.refresh_token.getD s.refresh_token
                  token_expiry := now + n - 60 } := by
  have harith : now + n - 60 = now + (n - 60) := by ring
  rw [harith]
  unfold refreshAccessToken respOk
  simp [hok, htok, hexp]

/-- Witness for C7: a 200 response with `expires_in = 1800` at time 100
stores expiry `100 + 1800 - 60 = 1840`. -/
theorem C7_expiry_arithmetic_witness :
    refreshAccessToken 100 ⟨200, some "t", none, some 1800⟩ ⟨none, "rt", 0⟩ =
      Except.ok ⟨some "t", "rt", 1840⟩ := by
  have h := C7_expiry_arithmetic 100 ⟨200, some "t", none, some 1800⟩ ⟨none, "rt", 0⟩
    "t" 1800 (by norm_num) rfl rfl
  simpa using h

/-- C10: a successful response that omits `expires_in` does not fail:
the code defaults the lifetime to 1800 seconds and stores expiry
`now + 1800 - 60`. -/
theorem C10_default_lifetime (now : ℤ) (resp : TokenResponse) (s : ClientState)
    (tok : String) (hok : resp.status_code < 400)
    (htok : resp.access_token = some tok) (hexp : resp.expires_in = none) :
    refreshAccessToken now resp s =
      Except.ok { access_token := some tok
                  refresh_token := resp.refresh_token.getD s.refresh_token
                  token_expiry := now + 1800 - 60 } := by
  have harith : now + 1800 - 60 = now + (1800 - 60 : ℤ) := by ring
  rw [harith]
  unfold refreshAccessToken respOk
  simp [hok, htok, hexp]

/-- Witness for C10: a 200 response without `expires_in` at time 0
stores expiry `0 + 1800 - 60 = 1740` and succeeds. -/
theorem C10_default_lifetime_witness :
    refreshAccessToken 0 ⟨200, some "t", none, none⟩ ⟨none, "rt", 0⟩ =
      Except.ok ⟨some "t", "rt", 1740⟩ := by
  have h := C10_default_lifetime 0 ⟨200, some "t", none, none⟩ ⟨none, "rt", 0⟩
    "t" (by norm_num) rfl rfl
  simpa using h

/-- C8: seeding never overwrites a non-empty cache, whatever the bundle
(no insert is even attempted, so no constraint violation can occur
either); for a complete bundle (the line-24 guard passes and the
unguarded NOT-NULL values are present), seeding the empty cache inserts
exactly one row — `seedRow b` — and seeding again with the same bundle
returns exactly that one row unchanged. -/
theorem C8_seeding_idempotent (secrets : Option SecretsBundle) (b : SecretsBundle)
    (cache : List TokenRow) (h : cache ≠ [])
    (hrt : truthyOpt b.refresh_token = true) (hat : truthyOpt b.at_issued = true)
    (hri : b.rt_issued ≠ none) (hac : b.access_token ≠ none) :
    seed_tokens_from_secrets secrets cache = .ok cache ∧
    seed_tokens_from_secrets (some b) [] = .ok [seedRow b] ∧
    seed_tokens_from_secrets (some b) [seedRow b] = .ok [seedRow b] ∧
    [seedRow b].length = 1 := by
  have hguard : ¬(truthyOpt b.refresh_token = false ∨ truthyOpt b.at_issued = false) := by
    simp [hrt, hat]
  have hcons : ¬(b.rt_issued = none ∨ b.access_token = none) := by
    simp [hri, hac]
  refine ⟨?_, ?_, ?_, rfl⟩
  · unfold seed_tokens_from_secrets
    cases secrets with
    | none => rfl
    | some b' =>
      by_cases h1 : truthyOpt b'.refresh_token = false ∨ truthyOpt b'.at_issued = false
      · simp [h1]
      · have hlen : cache.length ≠ 0 := by simpa [List.length_eq_zero] using h
        simp [h1, hlen]
  · unfold seed_tokens_from_secrets
    simp [hguard, hcons]
  · unfold seed_tokens_from_secrets
    simp [hguard]

/-- Witness for C8 at a concrete complete bundle: a pre-existing cache
row from a different bundle is untouched, seeding the empty cache
inserts exactly the bundle's row, and seeding again leaves exactly that
one row. -/
theorem C8_seeding_idempotent_witness :
    seed_tokens_from_secrets (some ⟨some "rt2", some "at2", "", some "ri2", some "ai2"⟩)
        [⟨some "ai1", some "ri1", some "at1", some "rt1", "", 1800, "Bearer", "api"⟩] =
      .ok [⟨some "ai1", some "ri1", some "at1", some "rt1", "", 1800, "Bearer", "api"⟩] ∧
    seed_tokens_from_secrets (some ⟨some "rt2", some "at2", "", some "ri2", some "ai2"⟩)
        [] = .ok [seedRow ⟨some "rt2", some "at2", "", some "ri2", some "ai2"⟩] ∧
    seed_tokens_from_secrets (some ⟨some "rt2", some "at2", "", some "ri2", some "ai2"⟩)
        [seedRow ⟨some "rt2", some "at2", "", some "ri2", some "ai2"⟩] =
      .ok [seedRow ⟨some "rt2", some "at2", "", some "ri2", some "ai2"⟩] ∧
    [seedRow (⟨some "rt2", some "at2", "", some "ri2", some "ai2"⟩ : SecretsBundle)].length
      = 1 := by
  have h := C8_seeding_idempotent
    (some ⟨some "rt2", some "at2", "", some "ri2", some "ai2"⟩)
    ⟨some "rt2", some "at2", "", some "ri2", some "ai2"⟩
    [⟨some "ai1", some "ri1", some "at1", some "rt1", "", 1800, "Bearer", "api"⟩]
    (by simp) rfl rfl (by simp) (by simp)
  exact h

/-- C3 (code divergence witness): with the token expired
(`token_expiry = 0 ≤ now = 100`), the schedule in which both threads run
the unlocked expiry check of `_ensure_token` (line 83) before either
enters `_refresh_access_token`'s lock is a legal interleaving, and it
issues TWO renewal HTTP requests — the claim's "exactly one" fails.
Both threads do finish with a valid token (`expiry = 1840`), and the
fully serialized schedule issues one request, so the behaviour is a
race, not a determinism bug. -/
theorem C3_double_refresh_race :
    checkExpired 100 ⟨0, 0⟩ = true ∧
    TokenState.refresh_count
        (run2 100 1800 [true, false, true, false] ⟨0, 0⟩ ThreadPC.start ThreadPC.start).1 = 2 ∧
    TokenState.token_expiry
        (run2 100 1800 [true, false, true, false] ⟨0, 0⟩ ThreadPC.start ThreadPC.start).1 = 1840 ∧
    (run2 100 1800 [true, false, true, false] ⟨0, 0⟩ ThreadPC.start ThreadPC.start).2 =
      (ThreadPC.done, ThreadPC.done) ∧
    TokenState.refresh_count
        (run2 100 1800 [true, true, false, false] ⟨0, 0⟩ ThreadPC.start ThreadPC.start).1 = 1 := by
  refine ⟨rfl, rfl, rfl, rfl, rfl⟩

/-- C2: every row of the exposure surface carries in the aggregate
column the sum of `net_gex` over ALL records at that row's strike with
`dte ≤ AGGREGATE_DTE`; every strike present in the records has a row;
appending a record with `dte > AGGREGATE_DTE` never changes the
aggregate value, and appending a qualifying record at the strike always
adds its `net_gex`, whatever its expiration. -/
theorem C2_aggregate_column (records : List OptionRecord) (spot s : ℚ)
    (r0 : OptionRecord) (row : GexRow)
    (hrow : row ∈ (calculate_gex records spot).rows) :
    row.aggCell =
      ((records.filter fun r =>
          decide (r.strike = row.strike ∧ r.dte ≤ AGGREGATE_DTE)).map net_gex).sum ∧
    ((∃ r ∈ records, r.strike = s) →
      ∃ row' ∈ (calculate_gex records spot).rows, row'.strike = s) ∧
    (AGGREGATE_DTE < r0.dte → aggCellVal (records ++ [r0]) s = aggCellVal records s) ∧
    (r0.strike = s → r0.dte ≤ AGGREGATE_DTE →
      aggCellVal (records ++ [r0]) s = aggCellVal records s + net_gex r0) := by
  rw [calculate_gex_eq] at hrow ⊢
  refine ⟨?_, ?_, ?_, ?_⟩
  · rcases List.mem_map.mp hrow with ⟨t, ht, rfl⟩
    rfl
  · rintro ⟨r, hr, rfl⟩
    exact ⟨_, List.mem_map.mpr ⟨r.strike, mem_strikesDesc.mpr ⟨r, hr, rfl⟩, rfl⟩, rfl⟩
  · intro hd
    rw [aggCellVal_append]
    have hc : ¬(r0.strike = s ∧ r0.dte ≤ AGGREGATE_DTE) :=
      fun hc => absurd hc.2 (Nat.not_le.mpr hd)
    simp [hc]
  · intro hs hd
    rw [aggCellVal_append]
    simp [hs, hd]

/-- Witness for C2 on the spec's DTE {5, 10, 45} example: the single
row's aggregate cell is `10 + (-14) = -4` (the DTE 45 record excluded),
and appending another DTE 45 record leaves the aggregate value
unchanged. -/
theorem C2_aggregate_column_witness :
    (⟨4500, [10, -14, 30], -4, 6⟩ : GexRow).aggCell =
      ((recsAgg.filter fun r =>
          decide (r.strike = (⟨4500, [10, -14, 30], -4, 6⟩ : GexRow).strike ∧
            r.dte ≤ AGGREGATE_DTE)).map net_gex).sum ∧
    aggCellVal (recsAgg ++ [⟨4500, 11, 45, 3, 0, 1/10, 0⟩]) 4500 =
      aggCellVal recsAgg 4500 := by
  have h := C2_aggregate_column recsAgg 0 4500 ⟨4500, 11, 45, 3, 0, 1/10, 0⟩
    ⟨4500, [10, -14, 30], -4, 6⟩
    (by
      norm_num [calculate_gex, recsAgg, strikesDesc, uniqueExps, display_exps,
        pivotCellVal, aggCellVal, gexByStrikeVal, netContractsVal, net_gex, call_gex,
        put_gex, net_contracts, List.insertionSort, List.orderedInsert, List.dedup,
        List.filter, AGGREGATE_DTE, NUM_EXPIRY_COLUMNS])
  exact ⟨h.1, h.2.2.1 (by norm_num [AGGREGATE_DTE])⟩

/-- C5: the displayed expiration columns are exactly the
`NUM_EXPIRY_COLUMNS` chronologically earliest distinct expirations (the
`take` of the sorted distinct expirations, of length exactly
`NUM_EXPIRY_COLUMNS` whenever at least that many exist, with every
excluded expiration strictly later than every displayed one); each row
holds one cell per displayed column plus the aggregate cell plus the
net-contracts cell; records at excluded expirations still contribute to
the per-strike exposure and net-OI series and to the aggregate column
when their DTE qualifies. -/
theorem C5_column_restriction (records : List OptionRecord) (spot s : ℚ)
    (r0 : OptionRecord) (row : GexRow)
    (hrow : row ∈ (calculate_gex records spot).rows) :
    (calculate_gex records spot).expColumns =
      (uniqueExps records).take NUM_EXPIRY_COLUMNS ∧
    (NUM_EXPIRY_COLUMNS ≤ (uniqueExps records).length →
      (calculate_gex records spot).expColumns.length = NUM_EXPIRY_COLUMNS) ∧
    (∀ e ∈ uniqueExps records, e ∉ (calculate_gex records spot).expColumns →
      ∀ f ∈ (calculate_gex records spot).expColumns, f < e) ∧
    row.expCells.length = (calculate_gex records spot).expColumns.length ∧
    (r0.strike = s →
      gexByStrikeVal (records ++ [r0]) s = gexByStrikeVal records s + net_gex r0 ∧
      netContractsVal (records ++ [r0]) s =
        netContractsVal records s + net_contracts r0) ∧
    (r0.strike = s → r0.dte ≤ AGGREGATE_DTE →
      aggCellVal (records ++ [r0]) s = aggCellVal records s + net_gex r0) := by
  have hcols : (calculate_gex records spot).expColumns =
      (uniqueExps records).take NUM_EXPIRY_COLUMNS := by
    rw [calculate_gex_eq]
    rfl
  refine ⟨hcols, ?_, ?_, ?_, ?_, ?_⟩
  · intro hlen
    rw [hcols, List.length_take]
    omega
  · intro e he hne f hf
    rw [hcols] at hne hf
    exact take_lt_of_not_mem (pairwise_lt_uniqueExps records) NUM_EXPIRY_COLUMNS he hne hf
  · rw [calculate_gex_eq] at hrow
    rcases List.mem_map.mp hrow with ⟨t, ht, rfl⟩
    rw [hcols]
    exact List.length_map _ _
  · intro hs
    constructor
    · rw [gexByStrikeVal_append]; simp [hs]
    · rw [netContractsVal_append]; simp [hs]
  · intro hs hd
    rw [aggCellVal_append]
    simp [hs, hd]

/-- Witness for C5 on six distinct expirations: the displayed columns
are `[1, 2, 3, 4, 5]` (five of the six), expiration 6 is excluded and
strictly later than displayed expiration 1, the single row has five
expiration cells, and appending a record at undisplayed expiration 7
still adds to the per-strike exposure series. -/
theorem C5_column_restriction_witness :
    (calculate_gex recs6 0).expColumns = (uniqueExps recs6).take NUM_EXPIRY_COLUMNS ∧
    (calculate_gex recs6 0).expColumns.length = NUM_EXPIRY_COLUMNS ∧
    (1:ℕ) < 6 ∧
    (⟨100, [100, 100, 100, 100, 100], 600, 6⟩ : GexRow).expCells.length =
      (calculate_gex recs6 0).expColumns.length ∧
    gexByStrikeVal (recs6 ++ [⟨100, 7, 7, 2, 0, 1, 0⟩]) 100 =
      gexByStrikeVal recs6 100 + net_gex ⟨100, 7, 7, 2, 0, 1, 0⟩ := by
  have h := C5_column_restriction recs6 0 100 ⟨100, 7, 7, 2, 0, 1, 0⟩
    ⟨100, [100, 100, 100, 100, 100], 600, 6⟩
    (by
      norm_num [calculate_gex, recs6, strikesDesc, uniqueExps, display_exps,
        pivotCellVal, aggCellVal, gexByStrikeVal, netContractsVal, net_gex, call_gex,
        put_gex, net_contracts, List.insertionSort, List.orderedInsert, List.dedup,
        List.filter, AGGREGATE_DTE, NUM_EXPIRY_COLUMNS])
  refine ⟨h.1, h.2.1 (by decide), ?_, h.2.2.2.1, (h.2.2.2.2.1 rfl).1⟩
  exact h.2.2.1 6 (by decide) (by decide) 1 (by decide)

/-- C6: every entry of the per-strike exposure series sums `net_gex`
over ALL records at that strike (every expiration), every entry of the
net-open-interest series sums `call_OI - put_OI` likewise, every strike
present in the records appears in both series, and both series are
sorted by strike descending. -/
theorem C6_per_strike_series (records : List OptionRecord) (spot s : ℚ)
    (p q : ℚ × ℚ)
    (hp : p ∈ (calculate_gex records spot).gex_by_strike)
    (hq : q ∈ (calculate_gex records spot).net_contracts_by_strike) :
    p.2 = ((records.filter fun r => decide (r.strike = p.1)).map net_gex).sum ∧
    q.2 = ((records.filter fun r => decide (r.strike = q.1)).map
        (fun r => r.call_OI - r.put_OI)).sum ∧
    ((∃ r ∈ records, r.strike = s) →
      (∃ p' ∈ (calculate_gex records spot).gex_by_strike, p'.1 = s) ∧
      (∃ q' ∈ (calculate_gex records spot).net_contracts_by_strike, q'.1 = s)) ∧
    ((calculate_gex records spot).gex_by_strike.map Prod.fst).Sorted
      (fun a b : ℚ => b ≤ a) ∧
    ((calculate_gex records spot).net_contracts_by_strike.map Prod.fst).Sorted
      (fun a b : ℚ => b ≤ a) := by
  rw [calculate_gex_eq] at hp hq ⊢
  refine ⟨?_, ?_, ?_, ?_, ?_⟩
  · rcases List.mem_map.mp hp with ⟨t, ht, rfl⟩
    rfl
  · rcases List.mem_map.mp hq with ⟨t, ht, rfl⟩
    rfl
  · rintro ⟨r, hr, rfl⟩
    exact ⟨⟨_, List.mem_map.mpr ⟨r.strike, mem_strikesDesc.mpr ⟨r, hr, rfl⟩, rfl⟩, rfl⟩,
      ⟨_, List.mem_map.mpr ⟨r.strike, mem_strikesDesc.mpr ⟨r, hr, rfl⟩, rfl⟩, rfl⟩⟩
  · have hcomp : Prod.fst ∘ (fun t : ℚ => (t, gexByStrikeVal records t)) = id := rfl
    rw [List.map_map, hcomp, List.map_id]
    exact sorted_strikesDesc records
  · have hcomp : Prod.fst ∘ (fun t : ℚ => (t, netContractsVal records t)) = id := rfl
    rw [List.map_map, hcomp, List.map_id]
    exact sorted_strikesDesc records

/-- Witness for C6 on the spec's net-OI example (call OI 60/40 and put
OI 40/0 across two expirations at strike 4500): the net-OI entry is
`(60 - 40) + (40 - 0) = 60` and the exposure entry is `20 + 40 = 60`,
both summed across both expirations. -/
theorem C6_per_strike_series_witness :
    ((4500:ℚ), (60:ℚ)).2 =
      ((recsOI.filter fun r => decide (r.strike = ((4500:ℚ), (60:ℚ)).1)).map
        net_gex).sum ∧
    ((4500:ℚ), (60:ℚ)).2 =
      ((recsOI.filter fun r => decide (r.strike = ((4500:ℚ), (60:ℚ)).1)).map
        (fun r => r.call_OI - r.put_OI)).sum := by
  have h := C6_per_strike_series recsOI 0 4500 ((4500:ℚ), (60:ℚ)) ((4500:ℚ), (60:ℚ))
    (by
      norm_num [calculate_gex, recsOI, strikesDesc, uniqueExps, display_exps,
        pivotCellVal, aggCellVal, gexByStrikeVal, netContractsVal, net_gex, call_gex,
        put_gex, net_contracts, List.insertionSort, List.orderedInsert, List.dedup,
        List.filter, AGGREGATE_DTE, NUM_EXPIRY_COLUMNS])
    (by
      norm_num [calculate_gex, recsOI, strikesDesc, uniqueExps, display_exps,
        pivotCellVal, aggCellVal, gexByStrikeVal, netContractsVal, net_gex, call_gex,
        put_gex, net_contracts, List.insertionSort, List.orderedInsert, List.dedup,
        List.filter, AGGREGATE_DTE, NUM_EXPIRY_COLUMNS])
  exact ⟨h.1, h.2.1⟩
